import Mathlib

/-!
Verification development for the vlcb-rs embedded network stack.

Buffers are modelled as `List Nat`, each element one octet (the Rust `u8` bound
`< 256` appears as an explicit hypothesis where a statement needs it).  Machine
arithmetic is mirrored with explicit masks and `% 2^w` truncations at exactly
the places the Rust code truncates.  Fallible Rust code (`Result`) becomes
`Except`; a Rust panic (slice-length mismatch, `todo!()`, out-of-range slice
index) becomes an explicit `Except .error` outcome of a dedicated panic type.
Each definition cites the source item it embeds.
-/

set_option autoImplicit false

namespace Vlcb

/-- wire::Error (wire/mod.rs): parsing of a packet failed. -/
inductive WireError where
  | err
deriving DecidableEq

/-- Runtime aborts of the Rust code, modelled as explicit outcomes:
`todo!()` stubs and panicking slice operations. -/
inductive RtPanic where
  /-- `todo!()` at the end of InterfaceInner::process_can (iface/interface/can.rs:144). -/
  | todoProcessCan
  /-- `todo!()` at the start of module::Socket::dispatch (socket/module.rs:247). -/
  | todoDispatch
  /-- out-of-range slice index, e.g. `&mut buffer[..len]` on a shorter buffer. -/
  | sliceIndexFail
  /-- byteorder::NetworkEndian::read_u16 on a slice shorter than two octets. -/
  | readU16Fail
deriving DecidableEq

/-- byteorder::NetworkEndian::read_u16 over the first two octets of a buffer
(big-endian).  The Rust callers index `buf[0..2]`, so both octets exist there. -/
def readU16 (buf : List Nat) : Nat :=
  buf.getD 0 0 * 256 + buf.getD 1 0

/-- byteorder::NetworkEndian::write_u16 of a `u16` value into the first two
octets of a buffer (big-endian). -/
def writeU16 (v : Nat) (buf : List Nat) : List Nat :=
  (buf.set 0 (v / 256)).set 1 (v % 256)

/-- core::can::VlcbCanId: a 7-bit CAN bus address stored in one octet. -/
structure VlcbCanId where
  byte : Nat
deriving DecidableEq

/-- VlcbCanId::from_bytes (core/src/can.rs:19-23): construction masks every
octet with CANID_MASK = 0x7F, clearing the top bit. -/
def VlcbCanId.from_bytes (b : Nat) : VlcbCanId :=
  ⟨b &&& 127⟩

/-- wire::can::Priority (wire/can.rs:19-25): the four CAN minor-priority
levels, discriminants 0x00..0x03, Default = Low. -/
inductive Priority where
  | High
  | AboveNormal
  | Normal
  | Low
deriving DecidableEq

/-- num_enum FromPrimitive for Priority: match on the discriminant, the
`#[default]` variant Low absorbs every other value. -/
def Priority.from_primitive (v : Nat) : Priority :=
  if v = 0 then .High
  else if v = 1 then .AboveNormal
  else if v = 2 then .Normal
  else .Low

/-- num_enum IntoPrimitive for Priority (`priority as u8`). -/
def Priority.toU8 : Priority → Nat
  | .High => 0
  | .AboveNormal => 1
  | .Normal => 2
  | .Low => 3

namespace CanFrame

/-- Frame::check_len (wire/can.rs:89-96): `Err` iff the buffer is shorter than
the 2-octet header or the payload exceeds 8 octets. -/
def check_len (buf : List Nat) : Except WireError Unit :=
  if buf.length < 2 ∨ buf.length - 2 > 8 then .error .err else .ok ()

/-- Frame::src_addr (wire/can.rs:116-118): VlcbCanId::from_bytes of header
octet 1 (field::ID_CANID). -/
def src_addr (buf : List Nat) : VlcbCanId :=
  VlcbCanId.from_bytes (buf.getD 1 0)

/-- Frame::priority (wire/can.rs:121-125).  The source computes
`(read_u16(ID) & ID_PRIORITY_MASK << 7) as u8` and then masks with
Priority::MASK.  Rust precedence binds the shift first, so the u16 mask is
`(0x0780 <<< 7) % 2^16 = 0xC000`, and the `as u8` cast keeps the low octet
(`% 256`). -/
def priority (buf : List Nat) : Priority :=
  Priority.from_primitive (((readU16 buf &&& ((0x0780 <<< 7) % 65536)) % 256) &&& 3)

/-- Frame::is_rtr (wire/can.rs:128-130): HEADER_RTR_MASK = 0x8000 of the
16-bit header. -/
def is_rtr (buf : List Nat) : Bool :=
  (readU16 buf &&& 0x8000) != 0

/-- Frame::payload (wire/can.rs:136-139): the buffer after the 2-octet header. -/
def payload (buf : List Nat) : List Nat :=
  buf.drop 2

/-- Frame::set_src_addr (wire/can.rs:145-149): mask-and-insert of the (already
7-bit-masked) id value into header octet 1, `(old & !0x7F) | (v & 0x7F)`
(`!0x7F` on u8 is `255 ^^^ 127`). -/
def set_src_addr (v : VlcbCanId) (buf : List Nat) : List Nat :=
  buf.set 1 ((buf.getD 1 0 &&& (255 ^^^ 127)) ||| (v.byte &&& 127))

/-- Frame::set_priority (wire/can.rs:153-163): the discriminant is shifted as
a u8 — `(val << 7)` truncates to `% 256` — then mask-and-inserted into the
16-bit header under ID_PRIORITY_MASK = 0x0780. -/
def set_priority (p : Priority) (buf : List Nat) : List Nat :=
  let v8 := (p.toU8 <<< 7) % 256
  writeU16 ((readU16 buf &&& (65535 ^^^ 0x0780)) ||| (v8 &&& 0x0780)) buf

/-- Frame::set_rtr (wire/can.rs:166-172): only acts when `value` is true, in
which case it ORs HEADER_RTR_MASK = 0x8000 into the 16-bit header; with
`value = false` the buffer is untouched. -/
def set_rtr (v : Bool) (buf : List Nat) : List Nat :=
  if v then writeU16 (readU16 buf ||| 0x8000) buf else buf

/-- Frame::payload_mut (wire/can.rs:176-179) followed by a full
`copy_from_slice` of a payload whose length matches `buf.length - 2`. -/
def set_payload (p : List Nat) (buf : List Nat) : List Nat :=
  buf.take 2 ++ p

end CanFrame

namespace VlcbPacket

/-- wire::vlcb::HEADER_LEN = 1 (Packet::header_len, wire/vlcb.rs:84,133-135). -/
def header_len : Nat := 1

/-- Packet::opcode (wire/vlcb.rs:145-147): low five bits of the leading octet
(OPCODE_MASK = 0x1F). -/
def opcode (buf : List Nat) : Nat :=
  buf.getD 0 0 &&& 31

/-- Packet::payload_len (wire/vlcb.rs:151-153): top three bits of the leading
octet (DATA_LEN_MASK = 0xE0), shifted down by 5. -/
def payload_len (buf : List Nat) : Nat :=
  (buf.getD 0 0 &&& 224) >>> 5

/-- Packet::total_len (wire/vlcb.rs:139-141): the source returns
`self.payload_len()` — the header octet is not added. -/
def total_len (buf : List Nat) : Nat :=
  payload_len buf

/-- Packet::check_len (wire/vlcb.rs:113-124): `Err` if the buffer is shorter
than the header, the header length exceeds the total length, or the buffer is
shorter than the total length. -/
def check_len (buf : List Nat) : Except WireError Unit :=
  if buf.length < header_len then .error .err
  else if total_len buf < header_len then .error .err
  else if buf.length < total_len buf then .error .err
  else .ok ()

/-- Packet::payload (wire/vlcb.rs:167-171): the slice
`buf[header_len .. total_len]`, i.e. octets 1 up to (exclusive) `total_len`. -/
def payload (buf : List Nat) : List Nat :=
  (buf.take (total_len buf)).drop header_len

/-- Packet::set_opcode (wire/vlcb.rs:176-179): mask-and-insert of the low five
bits into the leading octet (`!0x1F` on u8 is `255 ^^^ 31`). -/
def set_opcode (v : Nat) (buf : List Nat) : List Nat :=
  buf.set 0 ((buf.getD 0 0 &&& (255 ^^^ 31)) ||| (v &&& 31))

/-- Packet::set_payload_len (wire/vlcb.rs:182-185): `(value << 5)` as u8
(truncating, `% 256`), masked with 0xE0 and inserted into the leading octet. -/
def set_payload_len (v : Nat) (buf : List Nat) : List Nat :=
  buf.set 0 ((buf.getD 0 0 &&& (255 ^^^ 224)) ||| (((v <<< 5) % 256) &&& 224))

end VlcbPacket

/-- wire::vlcb::Protocol (wire/vlcb.rs:12-18): sub-protocol selector used for
socket dispatch. -/
inductive Protocol where
  | Module
  | LongMsg
deriving DecidableEq

/-- Modelled from the spec: the opcode enumeration `vlcb_defs::CbusOpCodes`
lives in the vlcb-defs crate, which is not under src/.  The spec limits base
opcodes to 32 values (§6) and distinguishes one long-message opcode (DTXC,
§4.1/§4.7); the CBUS opcode table the crate encodes assigns, within the 5-bit
range, 0x00 ACK .. 0x0A RESTP, 0x0C RSTAT, 0x0D QNN, 0x10 RQNP, 0x11 RQMN and
leaves 0x0B, 0x0E, 0x0F and 0x12..0x1F unassigned; DTXC is 0xE9.  Variants not
reachable from the claims are collapsed into `other`.  Because
wire/vlcb.rs:157 applies the infallible `CbusOpCodes::from` conversion, the
enum carries a num_enum catch-all default; `defaulted` stands for the default
variant an unassigned discriminant is coerced to. -/
inductive CbusOpCode where
  | ACK
  | NAK
  | HLT
  | BON
  | TOF
  | TON
  | ESTOP
  | ARST
  | RTOF
  | RTON
  | RESTP
  | RSTAT
  | QNN
  | RQNP
  | RQMN
  | DTXC
  | other (v : Nat)
  | defaulted
deriving DecidableEq

/-- Modelled from the spec: the num_enum `From<u8>` conversion of CbusOpCodes
(used infallibly at wire/vlcb.rs:157); assigned discriminants map to their
variant, everything else to the catch-all default variant. -/
def CbusOpCode.fromU8 (v : Nat) : CbusOpCode :=
  if v = 0x00 then .ACK
  else if v = 0x01 then .NAK
  else if v = 0x02 then .HLT
  else if v = 0x03 then .BON
  else if v = 0x04 then .TOF
  else if v = 0x05 then .TON
  else if v = 0x06 then .ESTOP
  else if v = 0x07 then .ARST
  else if v = 0x08 then .RTOF
  else if v = 0x09 then .RTON
  else if v = 0x0A then .RESTP
  else if v = 0x0C then .RSTAT
  else if v = 0x0D then .QNN
  else if v = 0x10 then .RQNP
  else if v = 0x11 then .RQMN
  else if v = 0xE9 then .DTXC
  else if 0x20 ≤ v ∧ v ≤ 0xFF then .other v
  else .defaulted

/-- Modelled from the spec: whether a discriminant names an assigned opcode of
the table (the spec's "recognized value", §4.1). -/
def CbusOpCode.recognized (v : Nat) : Bool :=
  CbusOpCode.fromU8 v != .defaulted

/-- Packet::next_header (wire/vlcb.rs:156-161): the DTXC opcode selects the
long-message sub-protocol, every other value the module sub-protocol. -/
def VlcbPacket.next_header (buf : List Nat) : Protocol :=
  match CbusOpCode.fromU8 (VlcbPacket.opcode buf) with
  | .DTXC => .LongMsg
  | _ => .Module

/-- wire::vlcb::Repr (wire/vlcb.rs:205-209): buffer-independent parsed header. -/
structure VlcbRepr where
  data_len : Nat
  opcode : CbusOpCode
  next_header : Protocol
deriving DecidableEq

/-- Repr::parse (wire/vlcb.rs:217-223).  The body is a single `Ok(Repr {..})`;
the opcode conversion is `CbusOpCodes::try_from(..).unwrap()`.  Since the enum
has the infallible `From<u8>` (used at wire/vlcb.rs:157), its `TryFrom<u8>` is
the std blanket instance with `Error = Infallible`, so the `unwrap` cannot
panic and no error path exists: `parse` is total. -/
def VlcbRepr.parse (buf : List Nat) : Except WireError VlcbRepr :=
  .ok { data_len := VlcbPacket.payload_len buf
        opcode := CbusOpCode.fromU8 (VlcbPacket.opcode buf)
        next_header := VlcbPacket.next_header buf }

/-- core::cbus::VlcbNodeNumber: a two-octet big-endian node number. -/
structure VlcbNodeNumber where
  b0 : Nat
  b1 : Nat
deriving DecidableEq

/-- VlcbNodeNumber::as_bytes (core/src/cbus.rs:27-29). -/
def VlcbNodeNumber.as_bytes (n : VlcbNodeNumber) : List Nat :=
  [n.b0, n.b1]

/-- slice::copy_from_slice: copies `src` over `dst`, panicking (modelled as
`none`) unless the two lengths are equal. -/
def copyFromSlice (dst src : List Nat) : Option (List Nat) :=
  if dst.length = src.length then some src else none

/-- core::cbus::EventId (core/src/cbus.rs:67-70): four data octets plus the
short flag. -/
structure EventId where
  data : List Nat
  short : Bool
deriving DecidableEq

/-- EventId::from_node_and_id (core/src/cbus.rs:114-122): starts from
`[0u8; 4]`, then `bytes.copy_from_slice(node_num.as_bytes())` — a
whole-array copy from a two-octet source into the four-octet array — then
writes the event number into octets 2..4 and builds the EventId. -/
def EventId.from_node_and_id (nn : VlcbNodeNumber) (evt_id : Nat) (s : Bool) :
    Option EventId := do
  let bytes := List.replicate 4 0
  let bytes ← copyFromSlice bytes nn.as_bytes
  let bytes := (bytes.set 2 (evt_id / 256)).set 3 (evt_id % 256)
  pure { data := bytes, short := s }

/-- EventId::node_num (core/src/cbus.rs:130-132): octets 0..2. -/
def EventId.node_num (e : EventId) : VlcbNodeNumber :=
  ⟨e.data.getD 0 0, e.data.getD 1 0⟩

/-- EventId::event_num (core/src/cbus.rs:135-137): big-endian u16 of octets 2..4. -/
def EventId.event_num (e : EventId) : Nat :=
  e.data.getD 2 0 * 256 + e.data.getD 3 0

/-- socket::module errors (socket/module.rs:45-48). -/
inductive RecvError where
  | Exhausted
  | Truncated
deriving DecidableEq

/-- Modelled from the spec: `crate::storage::PacketBuffer` is declared in
lib.rs but the storage module is not under src/.  The spec (§3, §4.3)
describes it as a bounded ring buffer of (metadata, payload) entries with
FIFO dequeue of the oldest entry; the capacity bound plays no role in the
claims settled here, so only the queue content is carried. -/
structure PacketBuffer where
  packets : List (Unit × List Nat)
deriving DecidableEq

/-- Modelled from the spec: PacketBuffer::dequeue removes and returns the
oldest (metadata, payload) entry, failing when the ring is empty. -/
def PacketBuffer.dequeue (b : PacketBuffer) :
    Option ((Unit × List Nat) × PacketBuffer) :=
  match b.packets with
  | [] => none
  | p :: rest => some (p, ⟨rest⟩)

/-- socket::module::Socket (socket/module.rs:70-73): receive and transmit
packet rings. -/
structure ModuleSocket where
  rx_buffer : PacketBuffer
  tx_buffer : PacketBuffer
deriving DecidableEq

/-- Socket::recv (socket/module.rs:167-172): dequeue the oldest received
payload, `Exhausted` when the ring is empty.  The state after the call is
returned alongside the result. -/
def ModuleSocket.recv (s : ModuleSocket) :
    Except RecvError (List Nat) × ModuleSocket :=
  match s.rx_buffer.dequeue with
  | none => (.error .Exhausted, s)
  | some ((_, p), rx) => (.ok p, { s with rx_buffer := rx })

/-- Socket::recv_slice (socket/module.rs:180-189): dequeues via `recv`; if the
destination is strictly shorter than the dequeued payload it returns
`Truncated` without copying anything; otherwise it copies
`min dest.length payload.length` octets into the front of the destination and
returns the count.  Result, destination contents after the call, and socket
state after the call. -/
def ModuleSocket.recv_slice (s : ModuleSocket) (dest : List Nat) :
    Except RecvError Nat × List Nat × ModuleSocket :=
  match ModuleSocket.recv s with
  | (.error e, s') => (.error e, dest, s')
  | (.ok buffer, s') =>
    if dest.length < buffer.length then (.error .Truncated, dest, s')
    else
      let length := min dest.length buffer.length
      (.ok length, buffer.take length ++ dest.drop length, s')

/-- phy::can::TxToken::consume (phy/can.rs:105-122).  The body allocates
`Vec::<u8, FRAME_LEN>::new()` — a heapless vector of current length 0 — and
immediately slices it as `&mut buffer[..len]`: for `len ≥ 1` this slice index
is out of range and panics.  For `len = 0` the closure runs on the empty
slice, after which `into_can_frame` (phy/can.rs:124-132) calls
`NetworkEndian::read_u16` on the 0-length slice, which panics.  The `ok`
branch (frame construction and transmit) is therefore unreachable. -/
def TxToken.consume (len : Nat) (f : List Nat → List Nat) :
    Except RtPanic (List Nat) :=
  let buffer : List Nat := []
  if len ≤ buffer.length then
    let buffer := f (buffer.take len)
    if 2 ≤ len then .ok buffer else .error .readU16Fail
  else .error .sliceIndexFail

/-- InterfaceInner::process_can (iface/interface/can.rs:53-145): `check!` on
CanFrame::new_checked returns `None` for a malformed bus frame, `check!` on
VlcbPacketWire::new_checked returns `None` for a malformed packet payload, and
every frame passing both checks reaches the trailing `todo!()`. -/
def process_can (frame : List Nat) : Except RtPanic (Option Unit) :=
  match CanFrame.check_len frame with
  | .error _ => .ok none
  | .ok () =>
    match VlcbPacket.check_len (CanFrame.payload frame) with
    | .error _ => .ok none
    | .ok () => .error .todoProcessCan

/-- Device state for the poll engine: the queue of receivable frames and the
remaining transmit-token capacity (Device::receive pops the front frame;
Device::transmit yields a token while capacity remains). -/
structure DevState where
  rx_queue : List (List Nat)
  tx_cap : Nat
deriving DecidableEq

/-- Interface::ingress_packets (iface/interface/mod.rs:171-199): while the
device yields a receive token, consume the frame through `process_can`; a
produced reply packet would be emitted through `dispatch_vlcb`
(iface/interface/vlcb.rs, absent from src/ — unreachable here because
`process_can` never returns `Some`); every consumed token sets
`processed_any`. -/
def ingress_packets : List (List Nat) → Except RtPanic Bool
  | [] => .ok false
  | frame :: rest => do
    match ← process_can frame with
    | some _ => pure ()
    | none => pure ()
    let _ ← ingress_packets rest
    pure true

/-- Interface::egress_packets (iface/interface/mod.rs:201-256): iterate the
sockets; for each, `Socket::Module(socket).dispatch(..)` is invoked — and
module::Socket::dispatch (socket/module.rs:242-247) begins with `todo!()`, so
the `respond` closure (which would request `device.transmit()` and stop the
pass with `EgressError::Exhausted` when the device is out of capacity) is
never entered.  With no sockets the pass emits nothing. -/
def egress_packets (dev : DevState) (sockets : List ModuleSocket) :
    Except RtPanic (Bool × DevState) :=
  match sockets with
  | [] => .ok (false, dev)
  | _ :: _ => .error .todoDispatch

/-- The `loop { ingress; egress; }` fixed point of Interface::poll
(iface/interface/mod.rs:155-166), with explicit fuel.  One iteration drains
the whole device receive queue, so every later iteration sees an empty queue;
`rx_queue.length + 2` iterations therefore always reach the `break`. -/
def pollAux : Nat → DevState → List ModuleSocket → Bool → Except RtPanic Bool
  | 0, _, _, ready => .ok ready
  | fuel + 1, dev, sockets, ready => do
    let didIngress ← ingress_packets dev.rx_queue
    let (didEgress, dev') ← egress_packets { dev with rx_queue := [] } sockets
    if didIngress || didEgress then pollAux fuel dev' sockets true
    else .ok ready

/-- Interface::poll (iface/interface/mod.rs:142-169): repeat
ingress-then-egress until neither made progress; the overall result tells
whether any pass did something. -/
def Interface.poll (dev : DevState) (sockets : List ModuleSocket) :
    Except RtPanic Bool :=
  pollAux (dev.rx_queue.length + 2) dev sockets false

/-- Concrete CAN frame for the C2 evaluation: a zeroed 5-octet buffer (2-octet
header, 3-octet payload) written with the tuple (address 5, priority Low,
rtr false, payload [7,8,9]) through the four mutators. -/
def c2Frame : List Nat :=
  CanFrame.set_payload [7, 8, 9]
    (CanFrame.set_rtr false
      (CanFrame.set_priority .Low
        (CanFrame.set_src_addr (VlcbCanId.from_bytes 5) (List.replicate 5 0))))

end Vlcb

namespace Vlcb

set_option maxRecDepth 10000

/-- Inserting a 5-bit value into a byte under the low-5-bit mask and reading
the low five bits back recovers the value, for any prior byte contents. -/
theorem land_insert_low5 : ∀ d < 256, ∀ op < 32,
    ((d &&& (255 ^^^ 31)) ||| (op &&& 31)) &&& (255 ^^^ 224) = op := by decide

/-- Reading either header field of a byte that combines a 5-bit opcode with a
3-bit length shifted into the top bits recovers the respective field. -/
theorem header_combine : ∀ op < 32, ∀ l < 8,
    ((op ||| (((l <<< 5) % 256) &&& 224)) &&& 31 = op) ∧
    (((op ||| (((l <<< 5) % 256) &&& 224)) &&& 224) >>> 5 = l) := by decide

/-- ORing 0x8000 into a value sets exactly bit 15 of its binary
representation. -/
theorem testBit_lor_32768 (x i : Nat) :
    (x ||| 32768).testBit i = (x.testBit i || decide (i = 15)) := by
  rw [Nat.testBit_lor]
  congr 1
  rcases eq_or_ne i 15 with h | h
  · subst h; decide
  · have h15 : (32768 : Nat) = 2 ^ 15 := by norm_num
    rw [h15, Nat.testBit_two_pow_of_ne (fun hh => h hh.symm)]
    simp [h]

/-- A value whose bit 15 is set has a non-zero 0x8000 masking. -/
theorem and_32768_ne_zero (y : Nat) (hy : y.testBit 15 = true) :
    (y &&& 32768) ≠ 0 := by
  have h15 : (32768 : Nat) = 2 ^ 15 := by norm_num
  rw [h15, Nat.and_two_pow, hy]
  norm_num

/-- Writing a u16 into the first two octets of a buffer holding at least two
octets and reading the two octets back recovers the value. -/
theorem readU16_writeU16 (v b0 b1 : Nat) (rest : List Nat) :
    readU16 (writeU16 v (b0 :: b1 :: rest)) = v := by
  show (v / 256) * 256 + v % 256 = v
  omega

/-- C1: the claim states that one Interface::poll call over a device holding K
receivable frames and sockets holding M pending transmits ingresses all K
frames, attempts all M transmits and returns true.  On the source this fails:
a frame passing both wire checks drives InterfaceInner::process_can into its
`todo!()` (iface/interface/can.rs:144) and any registered module socket drives
egress into Socket::dispatch's `todo!()` (socket/module.rs:247), so poll
panics instead of returning. -/
theorem c1_poll_hits_todo :
    Interface.poll ⟨[[0, 0, 32, 0]], 8⟩ [] = .error .todoProcessCan ∧
    Interface.poll ⟨[], 8⟩ [⟨⟨[]⟩, ⟨[((), [1, 2])]⟩⟩] = .error .todoDispatch :=
  ⟨rfl, rfl⟩

/-- C2: the claim states the (address, priority, rtr, payload) tuple written
through the mutators is read back identically.  Address, rtr and payload do
round-trip on the evaluated frame, but the priority read-back is the constant
High — Frame::priority masks the header with `0x0780 << 7` (= 0xC000) and
truncates to u8, yielding 0 — so writing Low reads back as High. -/
theorem c2_priority_readback_constant :
    CanFrame.src_addr c2Frame = VlcbCanId.from_bytes 5 ∧
    CanFrame.is_rtr c2Frame = false ∧
    CanFrame.payload c2Frame = [7, 8, 9] ∧
    CanFrame.priority c2Frame = Priority.High ∧
    (∀ p : Priority,
      CanFrame.priority (CanFrame.set_priority p (List.replicate 5 0)) = Priority.High) := by
  refine ⟨rfl, rfl, rfl, rfl, ?_⟩
  intro p
  cases p <;> rfl

/-- C3: the claim states payload() returns the L octets after the 1-octet
header for every packet passing check_len.  On the source, total_len returns
the bare payload_len, so the packet [0x20, 0xAB] (L = 1) passes check_len yet
payload() — the slice [1 .. total_len) = [1 .. 1) — is empty instead of
[0xAB]; and an L = 0 packet such as [0x00] is rejected by check_len outright. -/
theorem c3_payload_drops_an_octet :
    VlcbPacket.check_len [32, 171] = .ok () ∧
    VlcbPacket.payload_len [32, 171] = 1 ∧
    VlcbPacket.payload [32, 171] = [] ∧
    VlcbPacket.check_len [0] = .error .err :=
  ⟨rfl, rfl, rfl, rfl⟩

/-- C4: the claim states that when the device has no transmit capacity left,
egress stops quietly after the accepted transmits and keeps the remainder
queued.  On the source, egress over any non-empty socket list reaches
module::Socket::dispatch, whose body begins with `todo!()`
(socket/module.rs:247), so the pass panics before the respond closure can
even request a transmit token from the (here exhausted) device. -/
theorem c4_dispatch_todo_precedes_exhaustion :
    egress_packets ⟨[], 0⟩ [⟨⟨[]⟩, ⟨[((), [1, 2])]⟩⟩] = .error .todoDispatch :=
  rfl

/-- C5 counterexample: the buffer [0x2B, 0x00] is accepted by check_len and
its 5-bit opcode is 0x0B, an opcode value the CBUS table does not assign, yet
Repr::parse returns Ok — the claimed FramingError is never produced. -/
theorem c5_parse_skips_validation :
    VlcbPacket.check_len [43, 0] = .ok () ∧
    VlcbPacket.opcode [43, 0] = 11 ∧
    CbusOpCode.recognized 11 = false ∧
    VlcbRepr.parse [43, 0] = .ok ⟨1, .defaulted, .Module⟩ :=
  ⟨rfl, rfl, rfl, rfl⟩

/-- C5 amended: for every buffer accepted by check_len, Repr::parse returns Ok
with the header's payload length, the totally-converted opcode (unassigned
discriminants are coerced to the enum's catch-all default) and the derived
sub-protocol selector; it never returns a framing error and never panics. -/
theorem c5_parse_total (buf : List Nat)
    (_h : VlcbPacket.check_len buf = .ok ()) :
    VlcbRepr.parse buf =
      .ok ⟨VlcbPacket.payload_len buf, CbusOpCode.fromU8 (VlcbPacket.opcode buf),
        VlcbPacket.next_header buf⟩ :=
  rfl

/-- C5 witness: the amended statement evaluated at the checked buffer
[0x45, 0x01] (opcode TON, one payload octet). -/
theorem c5_parse_total_witness :
    VlcbRepr.parse [69, 1] = .ok ⟨2, .TON, .Module⟩ :=
  c5_parse_total [69, 1] rfl

/-- C6: the claim states TxToken::consume(len, f) hands f a writable buffer of
exactly len octets and then transmits it.  On the source the token slices a
freshly created — hence 0-length — heapless vector as `&mut buffer[..len]`,
which panics for every len ≥ 1; for len = 0 the closure does run, but
into_can_frame then reads a u16 from the 0-length slice and panics.  Consume
therefore panics for every requested length. -/
theorem c6_tx_consume_always_panics :
    (∀ f : List Nat → List Nat, TxToken.consume 0 f = .error .readU16Fail) ∧
    (∀ (len : Nat) (f : List Nat → List Nat),
      TxToken.consume (len + 1) f = .error .sliceIndexFail) := by
  refine ⟨fun f => rfl, fun len f => ?_⟩
  simp [TxToken.consume]

/-- C7: recv_slice into a destination strictly shorter than the oldest queued
payload returns Truncated, removes that packet from the receive ring (the
ring afterwards holds exactly the remaining entries, so a subsequent recv
cannot deliver it), and leaves the destination untouched — no partial copy is
observable. -/
theorem c7_recv_slice_truncated_drops (p dest : List Nat)
    (rest : List (Unit × List Nat)) (tx : PacketBuffer)
    (h : dest.length < p.length) :
    ModuleSocket.recv_slice ⟨⟨((), p) :: rest⟩, tx⟩ dest =
      (.error .Truncated, dest, ⟨⟨rest⟩, tx⟩) := by
  simp [ModuleSocket.recv_slice, ModuleSocket.recv, PacketBuffer.dequeue, h]

/-- C7 witness: the truncation behaviour at a two-octet payload and an empty
destination buffer, with one further packet queued behind it. -/
theorem c7_recv_slice_truncated_drops_witness :
    ModuleSocket.recv_slice ⟨⟨[((), [1, 2]), ((), [9])]⟩, ⟨[]⟩⟩ [] =
      (.error .Truncated, [], ⟨⟨[((), [9])]⟩, ⟨[]⟩⟩) :=
  c7_recv_slice_truncated_drops [1, 2] [] [((), [9])] ⟨[]⟩ (by decide)

/-- C8: the claim states EventId::from_node_and_id returns, without panicking,
an event with the given node number, event number and short flag.  On the
source it always panics: `bytes.copy_from_slice(node_num.as_bytes())` copies a
two-octet slice over the whole four-octet array, and copy_from_slice requires
equal lengths. -/
theorem c8_from_node_and_id_always_none (b0 b1 evt : Nat) (s : Bool) :
    EventId.from_node_and_id ⟨b0, b1⟩ evt s = none :=
  rfl

/-- C9: writing an opcode below 32 and a payload length below 8 into the
leading octet via set_opcode and set_payload_len and reading them back via
opcode and payload_len recovers the pair, whatever the octet's prior
contents. -/
theorem c9_header_field_roundtrip (d op l : Nat) (rest : List Nat)
    (hd : d < 256) (hop : op < 32) (hl : l < 8) :
    VlcbPacket.opcode
      (VlcbPacket.set_payload_len l (VlcbPacket.set_opcode op (d :: rest))) = op ∧
    VlcbPacket.payload_len
      (VlcbPacket.set_payload_len l (VlcbPacket.set_opcode op (d :: rest))) = l := by
  have ha := land_insert_low5 d hd op hop
  have hb := header_combine op hop l hl
  constructor
  · show ((((d &&& (255 ^^^ 31)) ||| (op &&& 31)) &&& (255 ^^^ 224)) |||
        (((l <<< 5) % 256) &&& 224)) &&& 31 = op
    rw [ha]
    exact hb.1
  · show (((((d &&& (255 ^^^ 31)) ||| (op &&& 31)) &&& (255 ^^^ 224)) |||
        (((l <<< 5) % 256) &&& 224)) &&& 224) >>> 5 = l
    rw [ha]
    exact hb.2

/-- C9 witness: the header round-trip at prior octet 0xAB, opcode 7, payload
length 5. -/
theorem c9_header_field_roundtrip_witness :
    VlcbPacket.opcode
      (VlcbPacket.set_payload_len 5 (VlcbPacket.set_opcode 7 (171 :: [1, 2]))) = 7 ∧
    VlcbPacket.payload_len
      (VlcbPacket.set_payload_len 5 (VlcbPacket.set_opcode 7 (171 :: [1, 2]))) = 5 :=
  c9_header_field_roundtrip 171 7 5 [1, 2] (by decide) (by decide) (by decide)

/-- C10: set_rtr(false) leaves any buffer unchanged; set_rtr(true) sets
exactly bit 15 of the 16-bit header (every bit of the header reads back as
before except bit 15, which reads true) and is_rtr then reports true; because
the false branch is the identity, the bit can never be cleared through
set_rtr. -/
theorem c10_set_rtr_effect (b0 b1 : Nat) (rest buf : List Nat) :
    CanFrame.set_rtr false buf = buf ∧
    (∀ i, (readU16 (CanFrame.set_rtr true (b0 :: b1 :: rest))).testBit i =
      ((readU16 (b0 :: b1 :: rest)).testBit i || decide (i = 15))) ∧
    CanFrame.is_rtr (CanFrame.set_rtr true (b0 :: b1 :: rest)) = true ∧
    CanFrame.set_rtr false (CanFrame.set_rtr true (b0 :: b1 :: rest)) =
      CanFrame.set_rtr true (b0 :: b1 :: rest) := by
  have key : readU16 (CanFrame.set_rtr true (b0 :: b1 :: rest)) =
      readU16 (b0 :: b1 :: rest) ||| 32768 :=
    readU16_writeU16 (readU16 (b0 :: b1 :: rest) ||| 32768) b0 b1 rest
  refine ⟨rfl, ?_, ?_, rfl⟩
  · intro i
    rw [key, testBit_lor_32768]
  · show ((readU16 (CanFrame.set_rtr true (b0 :: b1 :: rest)) &&& 32768) != 0) = true
    rw [key]
    have hb : (readU16 (b0 :: b1 :: rest) ||| 32768).testBit 15 = true := by
      rw [testBit_lor_32768]
      simp
    have hne := and_32768_ne_zero _ hb
    simpa [bne_iff_ne] using hne

end Vlcb
